import Mathlib

set_option maxRecDepth 40000

/-!
Shallow embedding of the Enhanced Financial Projection API (src/main.py) and
proofs about its validation pipeline, prompt builder, request orchestration and
goal-requirements utility.

Modelling conventions:
* The JSON payload returned by the external generation service is modelled by
  the inductive type `JValue`; pydantic field validation is modelled by
  parsers returning `Except String _`.  Python floats are modelled as exact
  rationals (`ℚ`); the goal utility, which takes fractional real powers, is
  modelled over `ℝ`.
* pydantic v2 lax coercions that play no role in any property considered here
  (e.g. numeric strings coercing to floats) are not modelled: the parsers
  accept exactly JSON values of the declared type, plus integral-valued
  numbers for `int` fields.
* The external call itself is treated as a black box; its possible observable outcomes at the
  orchestration boundary (no text, unparseable text, parsed JSON, transport
  failure) are the constructors of `UpstreamResponse`.  `predict` records in
  its result whether control reached the `client.models.generate_content`
  call (`serviceCalled`) and which instruction text was sent (`promptSent`).
-/

/-- A parsed JSON value, as produced by `json.loads` in `predict`
(src/main.py line 417). -/
inductive JValue where
  | null
  | bool (b : Bool)
  | num (q : ℚ)
  | str (s : String)
  | arr (elems : List JValue)
  | obj (fields : List (String × JValue))

/-- First binding of a key in a JSON object, as used by pydantic keyword
validation of `EnhancedProjectionSchema(**parsed_response)` (src/main.py
line 418). -/
def jLookup : List (String × JValue) → String → Option JValue
  | [], _ => none
  | (k, v) :: rest, key => if k = key then some v else jLookup rest key

/-- pydantic validation of a `float` field: accepts a JSON number. -/
def parseFloat : JValue → Except String ℚ
  | .num q => .ok q
  | _ => .error "Input should be a valid number"

/-- pydantic validation of an `int` field: accepts an integral JSON number. -/
def parseInt : JValue → Except String ℤ
  | .num q => if q.den = 1 then .ok q.num else .error "Input should be a valid integer"
  | _ => .error "Input should be a valid integer"

/-- pydantic validation of a `str` field: accepts a JSON string. -/
def parseStr : JValue → Except String String
  | .str s => .ok s
  | _ => .error "Input should be a valid string"

/-- pydantic validation of a `bool` field: accepts a JSON boolean. -/
def parseBool : JValue → Except String Bool
  | .bool b => .ok b
  | _ => .error "Input should be a valid boolean"

/-- Element-wise validation of the members of a JSON array. -/
def parseArray (p : JValue → Except String α) : List JValue → Except String (List α)
  | [] => .ok []
  | v :: vs => do
    let a ← p v
    let as ← parseArray p vs
    pure (a :: as)

/-- pydantic validation of a `List[_]` field: accepts a JSON array whose
members all validate.  No length constraint is imposed. -/
def parseListField (p : JValue → Except String α) : JValue → Except String (List α)
  | .arr es => parseArray p es
  | _ => .error "Input should be a valid list"

/-- Validation of a required field: missing keys are a validation error. -/
def getRequired (fields : List (String × JValue)) (key : String)
    (p : JValue → Except String α) : Except String α :=
  match jLookup fields key with
  | none => .error (key ++ ": Field required")
  | some v => p v

/-- Test for the JSON null value. -/
def isNullJ : JValue → Bool
  | .null => true
  | _ => false

/-- Validation of an `Optional[_] = None` field: a missing key or a JSON
null yields `none`. -/
def getOptional (fields : List (String × JValue)) (key : String)
    (p : JValue → Except String α) : Except String (Option α) :=
  match jLookup fields key with
  | none => .ok none
  | some v =>
    if isNullJ v then .ok none
    else
      match p v with
      | .ok a => .ok (some a)
      | .error e => .error e

/-- `GrowthRateAssumptions` (src/main.py lines 21-25). -/
structure GrowthRateAssumptions where
  revenue_cagr : ℚ
  expense_inflation : ℚ
  profit_margin_target : ℚ

/-- `KeyFinancialRatios` (src/main.py lines 27-32). -/
structure KeyFinancialRatios where
  gross_margin : ℚ
  net_margin : ℚ
  current_ratio : ℚ
  debt_to_equity : ℚ

/-- `MonthlyProjection` (src/main.py lines 34-40). -/
structure MonthlyProjection where
  month : String
  revenue : ℚ
  net_profit : ℚ
  gross_profit : ℚ
  expenses : ℚ

/-- `QuarterlyProjection` (src/main.py lines 42-48). -/
structure QuarterlyProjection where
  quarter : String
  revenue : ℚ
  net_profit : ℚ
  gross_profit : ℚ
  expenses : ℚ

/-- `AnnualProjection` (src/main.py lines 50-56). -/
structure AnnualProjection where
  year : ℤ
  revenue : ℚ
  net_profit : ℚ
  gross_profit : ℚ
  expenses : ℚ

/-- `ProjectionsData` (src/main.py lines 58-64).  The expected cardinalities
12/36/20/10/15 appear only in field descriptions, not as constraints. -/
structure ProjectionsData where
  one_year_monthly : List MonthlyProjection
  three_years_monthly : List MonthlyProjection
  five_years_quarterly : List QuarterlyProjection
  ten_years_annual : List AnnualProjection
  fifteen_years_annual : List AnnualProjection

/-- `GoalProjectionsData` (src/main.py lines 73-78). -/
structure GoalProjectionsData where
  three_years_monthly : List MonthlyProjection
  goal_achievement_summary : String
  required_adjustments : List String
  feasibility_assessment : String

/-- `MethodologyDetails` (src/main.py lines 80-85). -/
structure MethodologyDetails where
  forecasting_methods_used : List String
  seasonal_adjustments_applied : Bool
  trend_analysis_period : String
  growth_rate_assumptions : GrowthRateAssumptions

/-- `QualityScores` (src/main.py lines 87-89): the score carries
`ge=0.0, le=1.0` bounds. -/
structure QualityScores where
  score : ℚ
  rationale : String

/-- `EnhancedProjectionSchema` (src/main.py lines 92-120). -/
structure EnhancedProjectionSchema where
  executive_summary : String
  business_name : String
  completion_score : QualityScores
  data_quality_score : QualityScores
  projection_confidence_score : QualityScores
  projection_drivers_found : List String
  assumptions_made : List String
  anomalies_found : List String
  methodology : MethodologyDetails
  projections_data : ProjectionsData
  goal_based_projections : Option GoalProjectionsData
  goal_feasibility_score : Option QualityScores
  key_financial_ratios : KeyFinancialRatios
  risk_factors : List String
  recommendations : List String

/-- Validation of a `QualityScores` payload: the `score` field carries the
`ge=0.0, le=1.0` bounds of src/main.py line 88. -/
def parseQualityScores : JValue → Except String QualityScores
  | .obj fields => do
    let s ← getRequired fields "score" parseFloat
    if s < 0 then
      .error "Input should be greater than or equal to 0"
    else if 1 < s then
      .error "Input should be less than or equal to 1"
    else do
      let r ← getRequired fields "rationale" parseStr
      pure { score := s, rationale := r }
  | _ => .error "Input should be a valid dictionary"

/-- Validation of a `GrowthRateAssumptions` payload. -/
def parseGrowthRateAssumptions : JValue → Except String GrowthRateAssumptions
  | .obj fields => do
    let rc ← getRequired fields "revenue_cagr" parseFloat
    let ei ← getRequired fields "expense_inflation" parseFloat
    let pm ← getRequired fields "profit_margin_target" parseFloat
    pure { revenue_cagr := rc, expense_inflation := ei, profit_margin_target := pm }
  | _ => .error "Input should be a valid dictionary"

/-- Validation of a `KeyFinancialRatios` payload. -/
def parseKeyFinancialRatios : JValue → Except String KeyFinancialRatios
  | .obj fields => do
    let gm ← getRequired fields "gross_margin" parseFloat
    let nm ← getRequired fields "net_margin" parseFloat
    let cr ← getRequired fields "current_ratio" parseFloat
    let de ← getRequired fields "debt_to_equity" parseFloat
    pure { gross_margin := gm, net_margin := nm, current_ratio := cr, debt_to_equity := de }
  | _ => .error "Input should be a valid dictionary"

/-- Validation of a `MonthlyProjection` payload. -/
def parseMonthlyProjection : JValue → Except String MonthlyProjection
  | .obj fields => do
    let m ← getRequired fields "month" parseStr
    let r ← getRequired fields "revenue" parseFloat
    let np ← getRequired fields "net_profit" parseFloat
    let gp ← getRequired fields "gross_profit" parseFloat
    let e ← getRequired fields "expenses" parseFloat
    pure { month := m, revenue := r, net_profit := np, gross_profit := gp, expenses := e }
  | _ => .error "Input should be a valid dictionary"

/-- Validation of a `QuarterlyProjection` payload. -/
def parseQuarterlyProjection : JValue → Except String QuarterlyProjection
  | .obj fields => do
    let qt ← getRequired fields "quarter" parseStr
    let r ← getRequired fields "revenue" parseFloat
    let np ← getRequired fields "net_profit" parseFloat
    let gp ← getRequired fields "gross_profit" parseFloat
    let e ← getRequired fields "expenses" parseFloat
    pure { quarter := qt, revenue := r, net_profit := np, gross_profit := gp, expenses := e }
  | _ => .error "Input should be a valid dictionary"

/-- Validation of an `AnnualProjection` payload. -/
def parseAnnualProjection : JValue → Except String AnnualProjection
  | .obj fields => do
    let y ← getRequired fields "year" parseInt
    let r ← getRequired fields "revenue" parseFloat
    let np ← getRequired fields "net_profit" parseFloat
    let gp ← getRequired fields "gross_profit" parseFloat
    let e ← getRequired fields "expenses" parseFloat
    pure { year := y, revenue := r, net_profit := np, gross_profit := gp, expenses := e }
  | _ => .error "Input should be a valid dictionary"

/-- Validation of a `ProjectionsData` payload (src/main.py lines 58-64):
each of the five collections is validated element-wise; no list length is
checked. -/
def parseProjectionsData : JValue → Except String ProjectionsData
  | .obj fields => do
    let l1 ← getRequired fields "one_year_monthly" (parseListField parseMonthlyProjection)
    let l3 ← getRequired fields "three_years_monthly" (parseListField parseMonthlyProjection)
    let l5 ← getRequired fields "five_years_quarterly" (parseListField parseQuarterlyProjection)
    let l10 ← getRequired fields "ten_years_annual" (parseListField parseAnnualProjection)
    let l15 ← getRequired fields "fifteen_years_annual" (parseListField parseAnnualProjection)
    pure { one_year_monthly := l1, three_years_monthly := l3, five_years_quarterly := l5,
           ten_years_annual := l10, fifteen_years_annual := l15 }
  | _ => .error "Input should be a valid dictionary"

/-- Validation of a `GoalProjectionsData` payload. -/
def parseGoalProjectionsData : JValue → Except String GoalProjectionsData
  | .obj fields => do
    let l3 ← getRequired fields "three_years_monthly" (parseListField parseMonthlyProjection)
    let gs ← getRequired fields "goal_achievement_summary" parseStr
    let ra ← getRequired fields "required_adjustments" (parseListField parseStr)
    let fa ← getRequired fields "feasibility_assessment" parseStr
    pure { three_years_monthly := l3, goal_achievement_summary := gs,
           required_adjustments := ra, feasibility_assessment := fa }
  | _ => .error "Input should be a valid dictionary"

/-- Validation of a `MethodologyDetails` payload. -/
def parseMethodologyDetails : JValue → Except String MethodologyDetails
  | .obj fields => do
    let fm ← getRequired fields "forecasting_methods_used" (parseListField parseStr)
    let sa ← getRequired fields "seasonal_adjustments_applied" parseBool
    let tp ← getRequired fields "trend_analysis_period" parseStr
    let ga ← getRequired fields "growth_rate_assumptions" parseGrowthRateAssumptions
    pure { forecasting_methods_used := fm, seasonal_adjustments_applied := sa,
           trend_analysis_period := tp, growth_rate_assumptions := ga }
  | _ => .error "Input should be a valid dictionary"

/-- Validation of the whole `EnhancedProjectionSchema` payload, as performed
by `EnhancedProjectionSchema(**parsed_response)` (src/main.py line 418):
all non-`Optional` fields are required, the two goal-related fields default
to `None`. -/
def parseEnhancedProjectionSchema : JValue → Except String EnhancedProjectionSchema
  | .obj fields => do
    let es ← getRequired fields "executive_summary" parseStr
    let bn ← getRequired fields "business_name" parseStr
    let cs ← getRequired fields "completion_score" parseQualityScores
    let dq ← getRequired fields "data_quality_score" parseQualityScores
    let pc ← getRequired fields "projection_confidence_score" parseQualityScores
    let pd ← getRequired fields "projection_drivers_found" (parseListField parseStr)
    let am ← getRequired fields "assumptions_made" (parseListField parseStr)
    let af ← getRequired fields "anomalies_found" (parseListField parseStr)
    let me ← getRequired fields "methodology" parseMethodologyDetails
    let pj ← getRequired fields "projections_data" parseProjectionsData
    let gb ← getOptional fields "goal_based_projections" parseGoalProjectionsData
    let gf ← getOptional fields "goal_feasibility_score" parseQualityScores
    let kr ← getRequired fields "key_financial_ratios" parseKeyFinancialRatios
    let rf ← getRequired fields "risk_factors" (parseListField parseStr)
    let rc ← getRequired fields "recommendations" (parseListField parseStr)
    pure { executive_summary := es, business_name := bn, completion_score := cs,
           data_quality_score := dq, projection_confidence_score := pc,
           projection_drivers_found := pd, assumptions_made := am, anomalies_found := af,
           methodology := me, projections_data := pj, goal_based_projections := gb,
           goal_feasibility_score := gf, key_financial_ratios := kr, risk_factors := rf,
           recommendations := rc }
  | _ => .error "Input should be a valid dictionary"

/-- `fastapi.HTTPException` as observed at the boundary: a status code and a
detail message. -/
structure HTTPException where
  status_code : ℕ
  detail : String

/-- An uploaded multipart file: a possibly-absent filename and uninterpreted byte
content (the content is only ever forwarded, never inspected). -/
structure UploadFile where
  filename : Option String
  content : String

/-- Python `str.lower()` restricted to basic-latin letters, matching
`Char.toLower`; the filenames validated by `predict` are ASCII. -/
def strToLower (s : String) : String :=
  ⟨s.data.map Char.toLower⟩

/-- Python `str.endswith(post)`. -/
def strEndsWith (s post : String) : Bool :=
  post.data.isSuffixOf s.data

/-- The file-type check of `predict` (src/main.py lines 140 and 143):
`not filename or not filename.lower().endswith(.csv)` rejects; this
predicate holds exactly when the file is accepted. -/
def csvFileOk : Option String → Bool
  | none => false
  | some s => if s = "" then false else strEndsWith (strToLower s) ".csv"

/-- A horizontal rule of k box-drawing characters, as used by the prompt
literals of src/main.py (every rule there is 107 characters wide). -/
def barRun (k : ℕ) : String :=
  ⟨List.replicate k (Char.ofNat 9552)⟩

/-- Chunk 1 of 3 of the `base_prompt` literal of `predict` (src/main.py lines 154-239); the literal is split into chunks only so that proofs can evaluate it without exhausting the kernel stack, and its horizontal rules are factored through `barRun`; `basePrompt` below is its byte-exact text. -/
def basePromptChunk1 : String :=
  "
        ENHANCED FINANCIAL PROJECTION ANALYSIS - COMPREHENSIVE GUIDELINES WITH GOAL-BASED PLANNING

        Use your full potential of Deep Think, reasoning, and analytical capabilities to perform a thorough analysis of both the profit and loss statement and balance sheet data. Generate highly accurate, mathematically sound financial projections with rigorous attention to historical patterns, seasonality, and business fundamentals.

        " ++ (barRun 107 ++ ("
        CRITICAL DATA ANALYSIS REQUIREMENTS
        " ++ (barRun 107 ++ ("

        1. HISTORICAL DATA DEEP ANALYSIS:
        - Perform comprehensive trend analysis over the entire available historical period
        - Identify and quantify seasonal patterns using decomposition techniques
        - Calculate historical growth rates (CAGR, YoY, MoM) with statistical significance testing
        - Detect and analyze cyclical patterns, outliers, and structural breaks
        - Assess data quality and identify any gaps, anomalies, or inconsistencies
        - Calculate moving averages (3, 6, 12 month) to identify underlying trends

        2. SEASONAL PATTERN IDENTIFICATION:
        - Perform seasonal decomposition to isolate seasonal, trend, and irregular components
        - Calculate seasonal indices for each month/quarter
        - Identify peak and trough periods with statistical confidence intervals
        - Assess seasonal volatility and stability over multiple years
        - Account for any shifting seasonal patterns or evolving business cycles

        3. MATHEMATICAL VALIDATION REQUIREMENTS:
        - Ensure Revenue = Gross Profit + Cost of Goods"))))

/-- Chunk 2 of 3 of the `base_prompt` literal of `predict` (src/main.py lines 154-239); the literal is split into chunks only so that proofs can evaluate it without exhausting the kernel stack, and its horizontal rules are factored through `barRun`; `basePrompt` below is its byte-exact text. -/
def basePromptChunk2 : String :=
  " Sold (COGS)
        - Verify Net Profit = Gross Profit - Operating Expenses - Interest - Taxes
        - Maintain consistent relationships between P&L and Balance Sheet items
        - Apply compound growth calculations with precision to 4 decimal places
        - Validate that all financial ratios remain within realistic industry ranges

        " ++ (barRun 107 ++ ("
        ORIGINAL PROJECTION METHODOLOGY FRAMEWORK (UNCHANGED)
        " ++ (barRun 107 ++ ("

        1. REVENUE PROJECTIONS:
        - Base projections on weighted combination of:
            * Historical trend analysis (40% weight)
            * Seasonal patterns adjusted for growth (35% weight)
            * Industry benchmarks and economic indicators (15% weight)
            * Business-specific factors and market conditions (10% weight)
        - Apply different growth rates for different revenue streams if identifiable
        - Consider market saturation effects for long-term projections (10+ years)
        - Factor in economic cycles and potential market disruptions

        2. EXPENSE PROJECTIONS:
        - Categorize expenses into fixed, variable, and semi-variable components
        - Variable expenses: Scale with revenue using historical ratios
        - Fixed expenses: Apply inflation adjustments (typically 2-4% annually)
        - Semi-variable expenses: Use step-function modeling where applicable
        - Account for operational leverage effects as business scales
        - Consider cost optimization opportunities and efficiency improvements

        3. PROFIT MARGIN ANALYSIS:
        - Calculate historical gross margin trends and va"))))

/-- Chunk 3 of 3 of the `base_prompt` literal of `predict` (src/main.py lines 154-239); the literal is split into chunks only so that proofs can evaluate it without exhausting the kernel stack, and its horizontal rules are factored through `barRun`; `basePrompt` below is its byte-exact text. -/
def basePromptChunk3 : String :=
  "riability
        - Project margin improvements/deterioration based on:
            * Scale economies or diseconomies
            * Competitive pressures and pricing power
            * Cost inflation vs. pricing ability
            * Operational efficiency initiatives
        - Maintain margins within realistic bounds for the specific industry type

        " ++ (barRun 107 ++ ("
        SPECIFIC ORIGINAL PROJECTION REQUIREMENTS (UNCHANGED)
        " ++ (barRun 107 ++ ("

        TIMEFRAME SPECIFICATIONS (commencing January of Next Year):
        - 1 year: Monthly values (12 data points) - High granularity with seasonal precision
        - 3 years: Monthly values (36 data points) - Medium-term strategic planning
        - 5 years: Quarterly values (20 data points) - Long-term business planning
        - 10 years: Annual values (10 data points) - Strategic horizon planning
        - 15 years: Annual values (15 data points) - Extended strategic analysis

        FOR EACH PROJECTION PERIOD, PROVIDE:
        - Revenue (with sub-components if identifiable)
        - Gross Profit (mathematically consistent with revenue and COGS)
        - Total Expenses (broken down by category where possible)
        - Net Profit (after all expenses, interest, and taxes)

        MATHEMATICAL CONSISTENCY CHECKS:
        ✓ Monthly totals must equal quarterly aggregates
        ✓ Quarterly totals must equal annual aggregates
        ✓ Growth rates must be mathematically consistent across timeframes
        ✓ Seasonal patterns must repeat logically year over year
        ✓ All financial statement relationships must remain valid
        "))))

/-- The `base_prompt` string literal of `predict` (src/main.py lines 154-239). -/
def basePrompt : String :=
  basePromptChunk1 ++ (basePromptChunk2 ++ basePromptChunk3)

/-- Chunk 1 of 2 of the `enhanced_quality_section` literal of `predict` (src/main.py lines 307-361). -/
def qaSectionChunk1 : String :=
  "

        " ++ (barRun 107 ++ ("
        ENHANCED QUALITY ASSURANCE AND VALIDATION
        " ++ (barRun 107 ++ ("

        1. DUAL PROJECTION VALIDATION:
        - Ensure original projections are unaffected by goal specifications
        - Validate goal-based projections achieve the specified target
        - Cross-validate mathematical consistency in both projection sets
        - Compare feasibility and realism between original and goal-based scenarios

        2. GOAL FEASIBILITY ASSESSMENT:
        - Calculate required growth acceleration compared to historical trends
        - Assess market capacity to support accelerated growth
        - Evaluate operational requirements for goal achievement
        - Provide confidence score for goal achievability (0.0-1.0)

        3. BUSINESS LOGIC VALIDATION:
        - Ensure goal-based projections maintain realistic profit margins
        - Validate that cash flow can support accelerated growth
        - Assess if required investments are within reasonable ranges
        - Check that competitive dynamics allow for accelerated market share growth

        " ++ (barRun 107 ++ ("
        STATISTICAL AND ANALYTICAL REQUIREMENTS (ENHANCED)
        " ++ (barRun 79)))))))

/-- Chunk 2 of 2 of the `enhanced_quality_section` literal of `predict` (src/main.py lines 307-361). -/
def qaSectionChunk2 : String :=
  barRun 28 ++ ("

        1. COMPARATIVE TREND ANALYSIS:
        - Calculate variance between original and goal-based growth trajectories
        - Assess statistical significance of required growth acceleration
        - Identify key performance indicators that must improve to achieve goals
        - Quantify the risk premium associated with accelerated growth

        2. SCENARIO STRESS TESTING:
        - Test goal achievement under various market conditions
        - Assess sensitivity to key assumption changes
        - Evaluate downside protection and contingency requirements
        - Calculate probability of goal achievement based on historical performance

        3. OPTIMIZATION RECOMMENDATIONS:
        - Identify specific areas requiring operational improvements
        - Recommend investment priorities for goal achievement
        - Suggest milestone markers for tracking progress toward goal
        - Provide alternative timeline scenarios if original goal is unfeasible

        FINAL VALIDATION CHECKLIST (ENHANCED):
        ☐ All original projection requirements are met with same quality
        ☐ Goal-based projections mathematically achieve specified target
        ☐ Both projection sets maintain internal mathematical consistency
        ☐ Feasibility assessment is realistic and evidence-based
        ☐ Recommendations are specific and actionable
        ☐ Risk factors are identified for both scenarios
        ☐ Quality scores accurately reflect confidence in both projection sets
        ")

/-- The `enhanced_quality_section` string literal of `predict` (src/main.py lines 307-361). -/
def qaSection : String :=
  qaSectionChunk1 ++ qaSectionChunk2

/-- Literal segment 1 of 6 of the `goal_prompt_addition` f-string (src/main.py lines 244-305), before the first target-revenue interpolation. -/
def goalSeg1 : String :=
  "

        " ++ (barRun 107 ++ ("
        GOAL-BASED PROJECTION REQUIREMENTS - BACKWARD PLANNING METHODOLOGY
        " ++ (barRun 107 ++ ("

        CLIENT GOAL SPECIFICATION:
        - Target Revenue: $"))))

/-- Literal segment 2 of 6 of the `goal_prompt_addition` f-string (src/main.py lines 244-305), between the target-revenue and timeframe interpolations. -/
def goalSeg2 : String :=
  "
        - Timeframe: "

/-- Literal segment 3 of 6 of the `goal_prompt_addition` f-string (src/main.py lines 244-305), between the timeframe and achievement-date interpolations. -/
def goalSeg3 : String :=
  " years
        - Goal Achievement Date: December "

/-- Literal segment 4 of 6 of the `goal_prompt_addition` f-string (src/main.py lines 244-305), between the achievement-date and second target-revenue interpolations. -/
def goalSeg4 : String :=
  "

        BACKWARD PLANNING METHODOLOGY:
        1. GOAL ACHIEVEMENT ANALYSIS:
        - Calculate the required Compound Annual Growth Rate (CAGR) to reach $"

/-- Literal segment 5 of 6 of the `goal_prompt_addition` f-string (src/main.py lines 244-305), between the second and third target-revenue interpolations. -/
def goalSeg5 : String :=
  " from current revenue levels
        - Assess feasibility by comparing required CAGR against:
            * Historical growth capabilities of the business
            * Industry benchmarks and growth rates
            * Market size and competitive constraints
            * Operational scalability limitations

        2. MONTHLY PATHWAY CALCULATION:
        - Work backward from the $"

/-- Literal segment 6 of 6 of the `goal_prompt_addition` f-string (src/main.py lines 244-305), after the third target-revenue interpolation. -/
def goalSeg6 : String :=
  " target to calculate monthly revenue targets
        - Apply the same seasonal patterns identified in historical data analysis
        - Ensure month-over-month growth rates are achievable and sustainable
        - Calculate compound monthly growth rate required: ((Target/Current)^(1/(timeframe_months)) - 1)

        3. SUPPORTING METRICS CALCULATION:
        - Revenue → Calculate goal-adjusted revenue for each month
        - Gross Profit → Apply historical gross margin patterns to goal-adjusted revenue
        - Expenses → Scale expenses considering:
            * Fixed costs remain relatively stable
            * Variable costs scale with revenue using historical ratios
            * Investment requirements for growth (marketing, staff, infrastructure)
        - Net Profit → Calculate as Gross Profit minus scaled expenses

        4. FEASIBILITY VALIDATION:
        - Assess if required growth rate is sustainable given:
            * Historical volatility and growth patterns
            * Market size constraints and competitive dynamics
            * Operational capacity and scalability requirements
            * Financial resources needed for growth acceleration
        - Provide feasibility score (0.0-1.0) with detailed rationale

        5. GOAL-SPECIFIC OUTPUT REQUIREMENTS:
        - Generate 36 months of monthly goal-based projections (revenue, gross profit, expenses, net profit)
        - Provide goal achievement summary explaining the pathway
        - List required adjustments and investments needed
        - Compare goal-based projections against original projections
        - Assess risk factors specific to achieving the accelerated growth

        MATHEMATICAL CONSTRAINTS FOR GOAL PROJECTIONS:
        ✓ Final month revenue must equal or exceed target amount
        ✓ Growth trajectory must be mathematically consistent
        ✓ Seasonal patterns must be preserved in goal-based projections
        ✓ Profit margins must remain within achievable ranges
        ✓ Cash flow implications must be sustainable
        ✓ All financial relationships must remain valid

        CRITICAL: Generate BOTH original projections AND goal-based projections in the same response.
        The original projections should be exactly as they would be without any goal specification.
        The goal-based projections should be a separate analysis showing the pathway to achieve the specified target.
        "

/-- Round a rational to the nearest integer, ties to even: the rounding mode
of Python `round` and of the comma-grouped two-decimal float format. -/
def roundHalfEvenQ (q : ℚ) : ℤ :=
  let n : ℤ := ⌊q⌋
  let r : ℚ := q - n
  if r < 1 / 2 then n
  else if 1 / 2 < r then n + 1
  else if n % 2 = 0 then n else n + 1

/-- Insert a comma after every three digits of a reversed digit list
(thousands grouping of Python format `,`). -/
def commaRevAux : List Char → ℕ → List Char
  | [], _ => []
  | c :: cs, i =>
    if i ≠ 0 ∧ i % 3 = 0 then ',' :: c :: commaRevAux cs (i + 1)
    else c :: commaRevAux cs (i + 1)

/-- Thousands grouping of a digit string. -/
def groupDigits (s : String) : String :=
  ⟨(commaRevAux s.data.reverse 0).reverse⟩

/-- Two-digit zero-padded decimal suffix. -/
def twoDigits (n : ℕ) : String :=
  if n < 10 then "0" ++ toString n else toString n

/-- Python float formatting `f"{x:,.2f}"`: thousands separators and exactly
two decimal places (modelled exactly over `ℚ`). -/
def pyFormatComma2 (x : ℚ) : String :=
  let cents : ℤ := roundHalfEvenQ (|x| * 100)
  let ip : ℕ := (cents / 100).toNat
  let fp : ℕ := (cents % 100).toNat
  (if x < 0 then "-" else "") ++ groupDigits (toString ip) ++ "." ++ twoDigits fp

/-- Python `str(_)` on `Optional[int]`: `None` prints as the word None. -/
def formatOptInt : Option ℤ → String
  | none => "None"
  | some n => toString n

/-- Python `goal_timeframe_years or 3` (src/main.py line 253): `None` and
`0` are falsy. -/
def pyOrInt : Option ℤ → ℤ → ℤ
  | none, d => d
  | some n, d => if n = 0 then d else n

/-- The `goal_prompt_addition` f-string with its three interpolations
(src/main.py lines 244-305): `${goal_target_revenue:,.2f}` three times,
`{goal_timeframe_years}` once, and the achievement-date year
`datetime.now().year + (goal_timeframe_years or 3)` once. -/
def goalBlock (goal_target_revenue : ℚ) (goal_timeframe_years : Option ℤ)
    (nowYear : ℤ) : String :=
  goalSeg1 ++ (pyFormatComma2 goal_target_revenue ++ (goalSeg2 ++
    (formatOptInt goal_timeframe_years ++ (goalSeg3 ++
    (toString (nowYear + pyOrInt goal_timeframe_years 3) ++ (goalSeg4 ++
    (pyFormatComma2 goal_target_revenue ++ (goalSeg5 ++
    (pyFormatComma2 goal_target_revenue ++ goalSeg6)))))))))

/-- The `goal_prompt_addition` value (src/main.py lines 242-305): the empty
string unless `goal_target_revenue` is truthy (Python: `None` and `0.0` are
falsy). -/
def goalPromptAddition (goal_target_revenue : Option ℚ)
    (goal_timeframe_years : Option ℤ) (nowYear : ℤ) : String :=
  match goal_target_revenue with
  | none => ""
  | some x => if x = 0 then "" else goalBlock x goal_timeframe_years nowYear

/-- The `full_prompt` sent to the external service (src/main.py line 363):
`base_prompt + goal_prompt_addition + enhanced_quality_section`.  Because the
goal block embeds `datetime.now().year`, the current calendar year is an
explicit argument. -/
def buildInstruction (goal_target_revenue : Option ℚ)
    (goal_timeframe_years : Option ℤ) (nowYear : ℤ) : String :=
  basePrompt ++ goalPromptAddition goal_target_revenue goal_timeframe_years nowYear ++ qaSection

/-- Observable outcomes of the `client.models.generate_content` call at the
orchestration boundary. -/
inductive UpstreamResponse where
  | noText
  | invalidJson (msg : String)
  | json (v : JValue)
  | transportFailure (msg : String)

/-- Response handling of `predict` after the external call (src/main.py
lines 410-435): empty text maps to a 500, a parse or validation failure maps
to a 500 carrying the diagnostic, and a transport failure is caught by the
outermost handler as a 500.  A validated payload is returned — unless the
success log at lines 422-423 fails first: that log message, evaluated inside
the same try block, formats `goal_target_revenue` with the two-decimal money
format whenever the validated payload carries a (truthy)
`goal_based_projections` object; formatting `None` raises a `TypeError`
(caught at line 426 and surfaced as a 500 whose detail carries the Python
message below), while any float, including 0.0, formats successfully. -/
def handleUpstream (goal_target_revenue : Option ℚ) :
    UpstreamResponse → Except HTTPException EnhancedProjectionSchema
  | .noText => .error ⟨500, "Empty response from AI service"⟩
  | .invalidJson msg => .error ⟨500, "Schema validation failed: " ++ msg⟩
  | .json v =>
    match parseEnhancedProjectionSchema v with
    | .ok r =>
      if r.goal_based_projections.isSome && goal_target_revenue.isNone then
        .error ⟨500,
          "Schema validation failed: unsupported format string passed to NoneType.__format__"⟩
      else .ok r
    | .error e => .error ⟨500, "Schema validation failed: " ++ e⟩
  | .transportFailure msg => .error ⟨500, "Internal server error: " ++ msg⟩

/-- Result of one `predict` request, instrumented with whether control
reached the external generation call and with the instruction text sent. -/
structure PredictOutcome where
  result : Except HTTPException EnhancedProjectionSchema
  serviceCalled : Bool
  promptSent : Option String

/-- The `/predict` handler (src/main.py lines 127-435): validate the two
filenames, read the contents, build the instruction text, issue the external
call and handle its outcome.  The contents are read but never inspected. -/
def predict (profit_loss_file balance_sheet_file : UploadFile)
    (goal_target_revenue : Option ℚ) (goal_timeframe_years : Option ℤ)
    (nowYear : ℤ) (upstream : UpstreamResponse) : PredictOutcome :=
  if !csvFileOk profit_loss_file.filename then
    { result := .error ⟨400, "Profit and Loss file must be a CSV"⟩,
      serviceCalled := false, promptSent := none }
  else if !csvFileOk balance_sheet_file.filename then
    { result := .error ⟨400, "Balance Sheet file must be a CSV"⟩,
      serviceCalled := false, promptSent := none }
  else
    { result := handleUpstream goal_target_revenue upstream,
      serviceCalled := true,
      promptSent := some (buildInstruction goal_target_revenue goal_timeframe_years nowYear) }

/-- The `/predict-with-goal` handler (src/main.py lines 438-456): requires a
target and delegates to `predict`. -/
def predict_with_goal (profit_loss_file balance_sheet_file : UploadFile)
    (target_revenue : ℚ) (timeframe_years : ℤ) (nowYear : ℤ)
    (upstream : UpstreamResponse) : PredictOutcome :=
  predict profit_loss_file balance_sheet_file (some target_revenue)
    (some timeframe_years) nowYear upstream

/-- `GoalRequirementsRequest` (src/main.py lines 464-468). -/
structure GoalRequirementsRequest where
  current_revenue : ℝ
  target_revenue : ℝ
  timeframe_years : ℤ

/-- The `response_data` dictionary of `calculate_goal_requirements`
(src/main.py lines 489-498). -/
structure GoalRequirementsResponse where
  current_revenue : ℝ
  target_revenue : ℝ
  timeframe_years : ℤ
  required_cagr : ℝ
  required_monthly_growth : ℝ
  growth_multiple : ℝ
  feasibility_assessment : String
  recommendation : String

/-- Round a real to the nearest integer, ties to even: the rounding mode of
Python `round`. -/
noncomputable def roundHalfEvenR (x : ℝ) : ℤ :=
  if Int.fract x < 1 / 2 then ⌊x⌋
  else if 1 / 2 < Int.fract x then ⌊x⌋ + 1
  else if ⌊x⌋ % 2 = 0 then ⌊x⌋ else ⌊x⌋ + 1

/-- Python `round(x, 2)` over the idealized reals. -/
noncomputable def pyRound2 (x : ℝ) : ℝ :=
  (roundHalfEvenR (x * 100) : ℝ) / 100

/-- The `/calculate-goal-requirements` handler (src/main.py lines 471-505),
over idealized real arithmetic.  Python raises `ZeroDivisionError` at
`target_revenue / current_revenue` when the current revenue is zero, at
`1 / timeframe_years` when the timeframe is zero, and at `0.0 ** negative`;
a negative ratio makes at least one of the two `**` results complex, so the
first `round(...)` of a complex value raises `TypeError` (Python: type
complex does not define a round method).  Every such exception is caught by
the handler and surfaced as a 500 with detail
`f"Goal calculation failed: {str(e)}"`; the branch messages below
paraphrase the Python exception texts. -/
noncomputable def calculate_goal_requirements (request : GoalRequirementsRequest) :
    Except HTTPException GoalRequirementsResponse :=
  if request.current_revenue = 0 then
    .error ⟨500, "Goal calculation failed: float division by zero"⟩
  else if request.timeframe_years = 0 then
    .error ⟨500, "Goal calculation failed: division by zero"⟩
  else if request.target_revenue / request.current_revenue < 0 then
    .error ⟨500, "Goal calculation failed: round is not supported for complex values"⟩
  else if request.target_revenue = 0 ∧ request.timeframe_years < 0 then
    .error ⟨500, "Goal calculation failed: 0.0 cannot be raised to a negative power"⟩
  else
    let ratio : ℝ := request.target_revenue / request.current_revenue
    let required_cagr : ℝ := ratio ^ ((1 : ℝ) / (request.timeframe_years : ℝ)) - 1
    let monthly_growth_rate : ℝ :=
      ratio ^ ((1 : ℝ) / ((request.timeframe_years : ℝ) * 12)) - 1
    let growth_multiple : ℝ := ratio
    .ok { current_revenue := request.current_revenue,
          target_revenue := request.target_revenue,
          timeframe_years := request.timeframe_years,
          required_cagr := pyRound2 (required_cagr * 100),
          required_monthly_growth := pyRound2 (monthly_growth_rate * 100),
          growth_multiple := pyRound2 growth_multiple,
          feasibility_assessment := "Requires detailed analysis with historical data",
          recommendation := "Use /predict endpoint with goal parameters for comprehensive analysis" }

/-- The string `pat` occurs contiguously inside `text`. -/
def StrContains (text pat : String) : Prop :=
  pat.data <:+: text.data

/-- Executable test that a pattern is an initial segment of a text. -/
def leadMatch : List Char → List Char → Bool
  | [], _ => true
  | _ :: _, [] => false
  | a :: p, b :: l => a == b && leadMatch p l

/-- Executable occurrence test for a pattern inside a text. -/
def occursIn (p : List Char) : List Char → Bool
  | [] => p.isEmpty
  | c :: l => leadMatch p (c :: l) || occursIn p l

theorem leadMatch_complete : ∀ {p l : List Char}, p <+: l → leadMatch p l = true
  | [], _, _ => rfl
  | a :: p, [], h => by simp at h
  | a :: p, b :: l, h => by
    rw [List.cons_prefix_cons] at h
    simp only [leadMatch, Bool.and_eq_true, beq_iff_eq]
    exact ⟨h.1, leadMatch_complete h.2⟩

theorem occursIn_complete : ∀ {l p : List Char}, p <:+: l → occursIn p l = true
  | [], p, h => by simp only [List.infix_nil] at h; simp [h, occursIn, List.isEmpty]
  | c :: l, p, h => by
    rw [List.infix_cons_iff] at h
    simp only [occursIn, Bool.or_eq_true]
    exact h.imp leadMatch_complete occursIn_complete

theorem not_occurs {p l : List Char} (h : occursIn p l = false) : ¬ p <:+: l :=
  fun hc => by simp [occursIn_complete hc] at h

/-- An occurrence of `p` inside `a ++ b` either fits in `a` extended by the
first `p.length - 1` characters of `b`, or lies entirely inside `b`. -/
theorem occurrence_split {p a b : List Char} (h : p <:+: a ++ b) :
    p <:+: a ++ b.take (p.length - 1) ∨ p <:+: b := by
  obtain ⟨s, t, hst⟩ := h
  by_cases hle : a.length ≤ s.length
  · right
    have hs_pre : s <+: a ++ b := ⟨p ++ t, by simpa [List.append_assoc] using hst⟩
    have ha_pre : a <+: a ++ b := ⟨b, rfl⟩
    obtain ⟨s', rfl⟩ := List.prefix_of_prefix_length_le ha_pre hs_pre hle
    have : a ++ (s' ++ p ++ t) = a ++ b := by simpa [List.append_assoc] using hst
    exact ⟨s', t, List.append_cancel_left this⟩
  · left
    have hsp : s ++ p <+: a ++ b := ⟨t, by simpa [List.append_assoc] using hst⟩
    have htake : s ++ p = (a ++ b).take (s.length + p.length) := by
      simpa [List.length_append] using List.prefix_iff_eq_take.mp hsp
    have h1 : p <:+: s ++ p := ⟨s, [], by simp⟩
    have hmono : (a ++ b).take (s.length + p.length) <+:
        (a ++ b).take (a.length + (p.length - 1)) := by
      rw [List.take_isPrefix_take]
      left
      omega
    have htake_eq : (a ++ b).take (a.length + (p.length - 1)) =
        a ++ b.take (p.length - 1) := by
      rw [List.take_append_eq_append_take]
      simp [List.take_of_length_le, Nat.add_sub_cancel_left]
    rw [htake] at h1
    exact htake_eq ▸ h1.trans (hmono.isInfix)

theorem not_occurrence_append {p a b : List Char}
    (h1 : ¬ p <:+: a ++ b.take (p.length - 1)) (h2 : ¬ p <:+: b) :
    ¬ p <:+: a ++ b :=
  fun hc => (occurrence_split hc).elim h1 h2

theorem except_bind_ok {ε α β : Type} {x : Except ε α} {f : α → Except ε β} {b : β}
    (h : x >>= f = .ok b) : ∃ a, x = .ok a ∧ f a = .ok b := by
  cases x with
  | ok a => exact ⟨a, rfl, h⟩
  | error e =>
    simp only [Bind.bind, Except.bind] at h
    exact absurd h (by simp)

theorem getRequired_ok {fields : List (String × JValue)} {key : String}
    {p : JValue → Except String α} {a : α} (h : getRequired fields key p = .ok a) :
    ∃ v, jLookup fields key = some v ∧ p v = .ok a := by
  unfold getRequired at h
  cases hl : jLookup fields key with
  | none => rw [hl] at h; exact absurd h (by simp)
  | some v => rw [hl] at h; exact ⟨v, rfl, h⟩

theorem getOptional_ok_some {fields : List (String × JValue)} {key : String}
    {p : JValue → Except String α} {a : α}
    (h : getOptional fields key p = .ok (some a)) :
    ∃ v, jLookup fields key = some v ∧ p v = .ok a := by
  unfold getOptional at h
  cases hl : jLookup fields key with
  | none => rw [hl] at h; exact absurd h (by simp)
  | some v =>
    rw [hl] at h
    dsimp only at h
    by_cases hn : isNullJ v = true
    · rw [if_pos hn] at h
      exact absurd h (by simp)
    · rw [if_neg hn] at h
      cases hp : p v with
      | ok b =>
        rw [hp] at h
        refine ⟨v, rfl, ?_⟩
        rw [hp]
        injection h with h
        injection h with h
        rw [h]
      | error e => rw [hp] at h; exact absurd h (by simp)

theorem parseQualityScores_bounds {v : JValue} {s : QualityScores}
    (h : parseQualityScores v = .ok s) : 0 ≤ s.score ∧ s.score ≤ 1 := by
  cases v with
  | obj fields =>
    simp only [parseQualityScores] at h
    obtain ⟨q, hq, h⟩ := except_bind_ok h
    split at h
    · exact absurd h (by simp)
    · rename_i hneg
      split at h
      · exact absurd h (by simp)
      · rename_i hle
        obtain ⟨r, hr, h⟩ := except_bind_ok h
        injection h with h
        subst h
        exact ⟨le_of_not_lt hneg, le_of_not_lt hle⟩
  | null => exact absurd h (by simp [parseQualityScores])
  | bool b => exact absurd h (by simp [parseQualityScores])
  | num q => exact absurd h (by simp [parseQualityScores])
  | str s => exact absurd h (by simp [parseQualityScores])
  | arr es => exact absurd h (by simp [parseQualityScores])

theorem parseEnhanced_scores_bounded {v : JValue} {r : EnhancedProjectionSchema}
    (h : parseEnhancedProjectionSchema v = .ok r) :
    (0 ≤ r.completion_score.score ∧ r.completion_score.score ≤ 1) ∧
    (0 ≤ r.data_quality_score.score ∧ r.data_quality_score.score ≤ 1) ∧
    (0 ≤ r.projection_confidence_score.score ∧ r.projection_confidence_score.score ≤ 1) ∧
    (∀ s, r.goal_feasibility_score = some s → 0 ≤ s.score ∧ s.score ≤ 1) := by
  cases v with
  | obj fields =>
    simp only [parseEnhancedProjectionSchema] at h
    obtain ⟨es, hes, h⟩ := except_bind_ok h
    obtain ⟨bn, hbn, h⟩ := except_bind_ok h
    obtain ⟨cs, hcs, h⟩ := except_bind_ok h
    obtain ⟨dq, hdq, h⟩ := except_bind_ok h
    obtain ⟨pc, hpc, h⟩ := except_bind_ok h
    obtain ⟨pd, hpd, h⟩ := except_bind_ok h
    obtain ⟨am, ham, h⟩ := except_bind_ok h
    obtain ⟨af, haf, h⟩ := except_bind_ok h
    obtain ⟨me, hme, h⟩ := except_bind_ok h
    obtain ⟨pj, hpj, h⟩ := except_bind_ok h
    obtain ⟨gb, hgb, h⟩ := except_bind_ok h
    obtain ⟨gf, hgf, h⟩ := except_bind_ok h
    obtain ⟨kr, hkr, h⟩ := except_bind_ok h
    obtain ⟨rf, hrf, h⟩ := except_bind_ok h
    obtain ⟨rc, hrc, h⟩ := except_bind_ok h
    injection h with h
    subst h
    refine ⟨?_, ?_, ?_, ?_⟩
    · obtain ⟨v', _, hv'⟩ := getRequired_ok hcs
      exact parseQualityScores_bounds hv'
    · obtain ⟨v', _, hv'⟩ := getRequired_ok hdq
      exact parseQualityScores_bounds hv'
    · obtain ⟨v', _, hv'⟩ := getRequired_ok hpc
      exact parseQualityScores_bounds hv'
    · intro s hs
      subst hs
      obtain ⟨v', _, hv'⟩ := getOptional_ok_some hgf
      exact parseQualityScores_bounds hv'
  | null => exact absurd h (by simp [parseEnhancedProjectionSchema])
  | bool b => exact absurd h (by simp [parseEnhancedProjectionSchema])
  | num q => exact absurd h (by simp [parseEnhancedProjectionSchema])
  | str s => exact absurd h (by simp [parseEnhancedProjectionSchema])
  | arr es => exact absurd h (by simp [parseEnhancedProjectionSchema])

/-- A well-formed profit-and-loss upload. -/
def samplePl : UploadFile :=
  ⟨some "profit_loss.csv", "month,revenue\n2025-01,100"⟩

/-- A well-formed balance-sheet upload. -/
def sampleBs : UploadFile :=
  ⟨some "balance_sheet.csv", "item,value\ncash,50"⟩

/-- A raw quality-score object with score 0.85. -/
def sampleScoreJ : JValue :=
  .obj [("score", .num (mkRat 17 20)), ("rationale", .str "solid data")]

/-- A raw monthly projection entry. -/
def sampleMonthlyJ : JValue :=
  .obj [("month", .str "2026-01"), ("revenue", .num 1000), ("net_profit", .num 100),
        ("gross_profit", .num 400), ("expenses", .num 600)]

/-- A raw quarterly projection entry. -/
def sampleQuarterlyJ : JValue :=
  .obj [("quarter", .str "2026-Q1"), ("revenue", .num 3000), ("net_profit", .num 300),
        ("gross_profit", .num 1200), ("expenses", .num 1800)]

/-- A raw annual projection entry. -/
def sampleAnnualJ : JValue :=
  .obj [("year", .num 2026), ("revenue", .num 12000), ("net_profit", .num 1200),
        ("gross_profit", .num 4800), ("expenses", .num 7200)]

/-- A raw projections-data object whose five collections deliberately do not
have the documented cardinalities 12/36/20/10/15. -/
def sampleProjectionsJ : JValue :=
  .obj [("one_year_monthly", .arr [sampleMonthlyJ]),
        ("three_years_monthly", .arr [sampleMonthlyJ]),
        ("five_years_quarterly", .arr [sampleQuarterlyJ]),
        ("ten_years_annual", .arr [sampleAnnualJ]),
        ("fifteen_years_annual", .arr [sampleAnnualJ])]

/-- A raw methodology object. -/
def sampleMethodologyJ : JValue :=
  .obj [("forecasting_methods_used", .arr [.str "trend analysis"]),
        ("seasonal_adjustments_applied", .bool true),
        ("trend_analysis_period", .str "24 months"),
        ("growth_rate_assumptions",
          .obj [("revenue_cagr", .num (mkRat 1 10)), ("expense_inflation", .num (mkRat 3 100)),
                ("profit_margin_target", .num (mkRat 1 5))])]

/-- A raw key-financial-ratios object. -/
def sampleRatiosJ : JValue :=
  .obj [("gross_margin", .num (mkRat 2 5)), ("net_margin", .num (mkRat 1 10)),
        ("current_ratio", .num 2), ("debt_to_equity", .num (mkRat 1 2))]

/-- A complete valid upstream payload (without goal fields). -/
def samplePayload : JValue :=
  .obj [("executive_summary", .str "A steady business."),
        ("business_name", .str "Acme Pty Ltd"),
        ("completion_score", sampleScoreJ),
        ("data_quality_score", sampleScoreJ),
        ("projection_confidence_score", sampleScoreJ),
        ("projection_drivers_found", .arr [.str "seasonality"]),
        ("assumptions_made", .arr [.str "stable margins"]),
        ("anomalies_found", .arr []),
        ("methodology", sampleMethodologyJ),
        ("projections_data", sampleProjectionsJ),
        ("key_financial_ratios", sampleRatiosJ),
        ("risk_factors", .arr [.str "market risk"]),
        ("recommendations", .arr [.str "diversify"])]

/-- The quality score `samplePayload` validates to. -/
def sampleScore : QualityScores := ⟨mkRat 17 20, "solid data"⟩

/-- The monthly entry `samplePayload` validates to. -/
def sampleMonthly : MonthlyProjection := ⟨"2026-01", 1000, 100, 400, 600⟩

/-- The quarterly entry `samplePayload` validates to. -/
def sampleQuarterly : QuarterlyProjection := ⟨"2026-Q1", 3000, 300, 1200, 1800⟩

/-- The annual entry `samplePayload` validates to. -/
def sampleAnnual : AnnualProjection := ⟨2026, 12000, 1200, 4800, 7200⟩

/-- The validated object `samplePayload` parses to. -/
def sampleParsed : EnhancedProjectionSchema :=
  { executive_summary := "A steady business.",
    business_name := "Acme Pty Ltd",
    completion_score := sampleScore,
    data_quality_score := sampleScore,
    projection_confidence_score := sampleScore,
    projection_drivers_found := ["seasonality"],
    assumptions_made := ["stable margins"],
    anomalies_found := [],
    methodology := ⟨["trend analysis"], true, "24 months", ⟨mkRat 1 10, mkRat 3 100, mkRat 1 5⟩⟩,
    projections_data := ⟨[sampleMonthly], [sampleMonthly], [sampleQuarterly],
                         [sampleAnnual], [sampleAnnual]⟩,
    goal_based_projections := none,
    goal_feasibility_score := none,
    key_financial_ratios := ⟨mkRat 2 5, mkRat 1 10, 2, mkRat 1 2⟩,
    risk_factors := ["market risk"],
    recommendations := ["diversify"] }

/-- C1.  Every successful result of `predict` has all its quality scores
(the three mandatory ones and, when present, the goal-feasibility one) in
[0, 1]; every failure carries a 400- or 500-classified error; and a raw
quality-score payload with score 1.5 or -0.1 is rejected by validation. -/
theorem claim1_quality_scores_bounded :
    (∀ pl bs g y yr u r, (predict pl bs g y yr u).result = .ok r →
       (0 ≤ r.completion_score.score ∧ r.completion_score.score ≤ 1) ∧
       (0 ≤ r.data_quality_score.score ∧ r.data_quality_score.score ≤ 1) ∧
       (0 ≤ r.projection_confidence_score.score ∧ r.projection_confidence_score.score ≤ 1) ∧
       (∀ s, r.goal_feasibility_score = some s → 0 ≤ s.score ∧ s.score ≤ 1)) ∧
    (∀ pl bs g y yr u e, (predict pl bs g y yr u).result = .error e →
       e.status_code = 400 ∨ e.status_code = 500) ∧
    parseQualityScores (.obj [("score", .num (mkRat 3 2)), ("rationale", .str "high")]) =
      .error "Input should be less than or equal to 1" ∧
    parseQualityScores (.obj [("score", .num (mkRat (-1) 10)), ("rationale", .str "low")]) =
      .error "Input should be greater than or equal to 0" := by
  refine ⟨?_, ?_, rfl, rfl⟩
  · intro pl bs g y yr u r h
    unfold predict at h
    split at h
    · exact absurd h (by simp)
    · split at h
      · exact absurd h (by simp)
      · simp only at h
        cases u with
        | noText => exact absurd h (by simp [handleUpstream])
        | invalidJson msg => exact absurd h (by simp [handleUpstream])
        | transportFailure msg => exact absurd h (by simp [handleUpstream])
        | json v =>
          simp only [handleUpstream] at h
          cases hp : parseEnhancedProjectionSchema v with
          | ok r' =>
            rw [hp] at h
            simp only at h
            split at h
            · exact absurd h (by simp)
            · injection h with h
              subst h
              exact parseEnhanced_scores_bounded hp
          | error e => rw [hp] at h; exact absurd h (by simp)
  · intro pl bs g y yr u e h
    unfold predict at h
    split at h
    · injection h with h; subst h; left; rfl
    · split at h
      · injection h with h; subst h; left; rfl
      · simp only at h
        cases u with
        | noText => injection h with h; subst h; right; rfl
        | invalidJson msg =>
          simp only [handleUpstream] at h
          injection h with h; subst h; right; rfl
        | transportFailure msg =>
          simp only [handleUpstream] at h
          injection h with h; subst h; right; rfl
        | json v =>
          simp only [handleUpstream] at h
          cases hp : parseEnhancedProjectionSchema v with
          | ok r' =>
            rw [hp] at h
            simp only at h
            split at h
            · injection h with h; subst h; right; rfl
            · exact absurd h (by simp)
          | error d =>
            rw [hp] at h
            simp only at h
            injection h with h; subst h; right; rfl

/-- Witness for C1: a concrete successful run has bounded scores, and a
concrete failing run carries a classified status. -/
theorem claim1_witness :
    ((0 ≤ sampleParsed.completion_score.score ∧ sampleParsed.completion_score.score ≤ 1) ∧
     (0 ≤ sampleParsed.data_quality_score.score ∧ sampleParsed.data_quality_score.score ≤ 1) ∧
     (0 ≤ sampleParsed.projection_confidence_score.score ∧
       sampleParsed.projection_confidence_score.score ≤ 1) ∧
     (∀ s, sampleParsed.goal_feasibility_score = some s → 0 ≤ s.score ∧ s.score ≤ 1)) ∧
    ((⟨400, "Profit and Loss file must be a CSV"⟩ : HTTPException).status_code = 400 ∨
     (⟨400, "Profit and Loss file must be a CSV"⟩ : HTTPException).status_code = 500) :=
  ⟨claim1_quality_scores_bounded.1 samplePl sampleBs none (some 3) 2025
      (.json samplePayload) sampleParsed rfl,
   claim1_quality_scores_bounded.2.1 ⟨none, ""⟩ sampleBs none (some 3) 2025
      .noText ⟨400, "Profit and Loss file must be a CSV"⟩ rfl⟩

/-- C2 counterexample.  A request whose two files both have empty content but
well-formed `.csv` filenames is not rejected with a 400: the external service
is invoked and (here, with a valid upstream payload) the request succeeds, so
`predict` performs no emptiness check on the content payloads. -/
theorem claim2_counterexample :
    (predict ⟨some "pl.csv", ""⟩ ⟨some "bs.csv", ""⟩ none (some 3) 2025
        (.json samplePayload)).serviceCalled = true ∧
    (predict ⟨some "pl.csv", ""⟩ ⟨some "bs.csv", ""⟩ none (some 3) 2025
        (.json samplePayload)).result = .ok sampleParsed :=
  ⟨rfl, rfl⟩

/-- C2 (amended).  Before the external service is invoked, `predict` checks
only the filenames: a missing, empty, or non-`.csv` (case-insensitively)
filename fails with a 400 error without the service being called; whenever
both filenames pass, the service is called regardless of the content
payloads, which are never inspected for emptiness. -/
theorem claim2_filename_precondition :
    (∀ pl bs g y yr u, csvFileOk pl.filename = false →
       predict pl bs g y yr u =
         ⟨.error ⟨400, "Profit and Loss file must be a CSV"⟩, false, none⟩) ∧
    (∀ pl bs g y yr u, csvFileOk pl.filename = true → csvFileOk bs.filename = false →
       predict pl bs g y yr u =
         ⟨.error ⟨400, "Balance Sheet file must be a CSV"⟩, false, none⟩) ∧
    (∀ pl bs g y yr u, csvFileOk pl.filename = true → csvFileOk bs.filename = true →
       (predict pl bs g y yr u).serviceCalled = true) := by
  refine ⟨?_, ?_, ?_⟩
  · intro pl bs g y yr u h
    unfold predict
    rw [h]
    rfl
  · intro pl bs g y yr u h1 h2
    unfold predict
    rw [h1, h2]
    rfl
  · intro pl bs g y yr u h1 h2
    unfold predict
    rw [h1, h2]
    rfl

/-- Witness for C2 (amended): a concrete rejected request with a bad first
filename, a concrete rejected request with a bad second filename, and a
concrete request with empty contents that reaches the service. -/
theorem claim2_witness :
    predict ⟨some "report.pdf", "x"⟩ sampleBs none (some 3) 2025 .noText =
      ⟨.error ⟨400, "Profit and Loss file must be a CSV"⟩, false, none⟩ ∧
    predict samplePl ⟨none, "x"⟩ none (some 3) 2025 .noText =
      ⟨.error ⟨400, "Balance Sheet file must be a CSV"⟩, false, none⟩ ∧
    (predict ⟨some "pl.csv", ""⟩ ⟨some "bs.csv", ""⟩ none (some 3) 2025
        .noText).serviceCalled = true :=
  ⟨claim2_filename_precondition.1 ⟨some "report.pdf", "x"⟩ sampleBs none (some 3) 2025
      .noText rfl,
   claim2_filename_precondition.2.1 samplePl ⟨none, "x"⟩ none (some 3) 2025 .noText rfl rfl,
   claim2_filename_precondition.2.2 ⟨some "pl.csv", ""⟩ ⟨some "bs.csv", ""⟩ none (some 3)
      2025 .noText rfl rfl⟩

/-- C7.  A payload missing the required top-level `business_name` field fails
validation, and `predict` surfaces this as a 500 whose detail carries the
underlying validation diagnostic prefixed by the schema-validation marker. -/
theorem claim7_missing_required_field :
    ∀ fields : List (String × JValue), jLookup fields "business_name" = none →
      (∃ e, parseEnhancedProjectionSchema (.obj fields) = .error e) ∧
      (∀ pl bs g y yr, csvFileOk pl.filename = true → csvFileOk bs.filename = true →
        ∃ d, (predict pl bs g y yr (.json (.obj fields))).result =
          .error ⟨500, "Schema validation failed: " ++ d⟩) := by
  intro fields hmiss
  have hparse : ∃ e, parseEnhancedProjectionSchema (.obj fields) = .error e := by
    simp only [parseEnhancedProjectionSchema]
    cases hes : getRequired fields "executive_summary" parseStr with
    | error e => exact ⟨e, by simp [hes, Bind.bind, Except.bind]⟩
    | ok a =>
      have hbn : getRequired fields "business_name" parseStr =
          .error "business_name: Field required" := by
        unfold getRequired
        rw [hmiss]
        rfl
      exact ⟨"business_name: Field required",
        by simp [hes, hbn, Bind.bind, Except.bind]⟩
  refine ⟨hparse, ?_⟩
  intro pl bs g y yr h1 h2
  obtain ⟨e, he⟩ := hparse
  refine ⟨e, ?_⟩
  unfold predict
  rw [h1, h2]
  simp [handleUpstream, he]

/-- Witness for C7: the empty JSON object is missing `business_name` and is
rejected end-to-end with a 500 schema-validation error. -/
theorem claim7_witness :
    (∃ e, parseEnhancedProjectionSchema (.obj []) = .error e) ∧
    (∀ pl bs g y yr, csvFileOk pl.filename = true → csvFileOk bs.filename = true →
      ∃ d, (predict pl bs g y yr (.json (.obj []))).result =
        .error ⟨500, "Schema validation failed: " ++ d⟩) :=
  claim7_missing_required_field [] rfl

/-- C8.  If the upstream service returns no text, `predict` (with both files
accepted) fails with the 500 empty-response error, the service having been
called; in particular no response object is returned in that case. -/
theorem claim8_empty_upstream :
    ∀ pl bs g y yr, csvFileOk pl.filename = true → csvFileOk bs.filename = true →
      predict pl bs g y yr .noText =
        ⟨.error ⟨500, "Empty response from AI service"⟩, true,
         some (buildInstruction g y yr)⟩ := by
  intro pl bs g y yr h1 h2
  unfold predict
  rw [h1, h2]
  rfl

/-- Witness for C8: concrete empty-upstream request. -/
theorem claim8_witness :
    predict samplePl sampleBs none (some 3) 2025 .noText =
      ⟨.error ⟨500, "Empty response from AI service"⟩, true,
       some (buildInstruction none (some 3) 2025)⟩ :=
  claim8_empty_upstream samplePl sampleBs none (some 3) 2025 rfl rfl

/-- C10.  The filename check is exactly the case-insensitive `.csv` suffix
test: a present filename is accepted iff its lowercased form ends in `.csv`
(so `REPORT.CSV` is accepted), and a file whose lowercased name does not end
in `.csv` is rejected with the matching 400 error. -/
theorem claim10_case_insensitive_extension :
    (∀ s : String, csvFileOk (some s) = strEndsWith (strToLower s) ".csv") ∧
    csvFileOk (some "REPORT.CSV") = true ∧
    (∀ pl bs g y yr u s, pl.filename = some s →
       strEndsWith (strToLower s) ".csv" = false →
       (predict pl bs g y yr u).result =
         .error ⟨400, "Profit and Loss file must be a CSV"⟩) ∧
    (∀ pl bs g y yr u s, csvFileOk pl.filename = true → bs.filename = some s →
       strEndsWith (strToLower s) ".csv" = false →
       (predict pl bs g y yr u).result =
         .error ⟨400, "Balance Sheet file must be a CSV"⟩) := by
  have hchar : ∀ s : String, csvFileOk (some s) = strEndsWith (strToLower s) ".csv" := by
    intro s
    by_cases hs : s = ""
    · subst hs
      rfl
    · simp only [csvFileOk, if_neg hs]
  refine ⟨hchar, rfl, ?_, ?_⟩
  · intro pl bs g y yr u s hf hsfx
    unfold predict
    have : csvFileOk pl.filename = false := by rw [hf, hchar, hsfx]
    rw [this]
    rfl
  · intro pl bs g y yr u s h1 hf hsfx
    unfold predict
    have : csvFileOk bs.filename = false := by rw [hf, hchar, hsfx]
    rw [h1, this]
    rfl

/-- Witness for C10: `REPORT.CSV` is accepted; `report.pdf` and `data.CSV.txt`
are rejected with the corresponding 400 errors. -/
theorem claim10_witness :
    (predict ⟨some "report.pdf", "x"⟩ sampleBs none (some 3) 2025 .noText).result =
      .error ⟨400, "Profit and Loss file must be a CSV"⟩ ∧
    (predict ⟨some "REPORT.CSV", "x"⟩ ⟨some "data.CSV.txt", "y"⟩ none (some 3) 2025
        .noText).result = .error ⟨400, "Balance Sheet file must be a CSV"⟩ :=
  ⟨claim10_case_insensitive_extension.2.2.1 ⟨some "report.pdf", "x"⟩ sampleBs none
      (some 3) 2025 .noText "report.pdf" rfl rfl,
   claim10_case_insensitive_extension.2.2.2 ⟨some "REPORT.CSV", "x"⟩
      ⟨some "data.CSV.txt", "y"⟩ none (some 3) 2025 .noText "data.CSV.txt" rfl rfl rfl⟩

/-- Raw JSON encoding of a well-typed monthly projection entry. -/
def monthlyToJson (m : MonthlyProjection) : JValue :=
  .obj [("month", .str m.month), ("revenue", .num m.revenue),
        ("net_profit", .num m.net_profit), ("gross_profit", .num m.gross_profit),
        ("expenses", .num m.expenses)]

/-- Raw JSON encoding of a well-typed quarterly projection entry. -/
def quarterlyToJson (m : QuarterlyProjection) : JValue :=
  .obj [("quarter", .str m.quarter), ("revenue", .num m.revenue),
        ("net_profit", .num m.net_profit), ("gross_profit", .num m.gross_profit),
        ("expenses", .num m.expenses)]

/-- Raw JSON encoding of a well-typed annual projection entry. -/
def annualToJson (m : AnnualProjection) : JValue :=
  .obj [("year", .num (m.year : ℚ)), ("revenue", .num m.revenue),
        ("net_profit", .num m.net_profit), ("gross_profit", .num m.gross_profit),
        ("expenses", .num m.expenses)]

/-- Raw JSON encoding of a well-typed `ProjectionsData` value, with the five
collections of arbitrary lengths. -/
def projectionsDataToJson (d : ProjectionsData) : JValue :=
  .obj [("one_year_monthly", .arr (d.one_year_monthly.map monthlyToJson)),
        ("three_years_monthly", .arr (d.three_years_monthly.map monthlyToJson)),
        ("five_years_quarterly", .arr (d.five_years_quarterly.map quarterlyToJson)),
        ("ten_years_annual", .arr (d.ten_years_annual.map annualToJson)),
        ("fifteen_years_annual", .arr (d.fifteen_years_annual.map annualToJson))]

theorem parseMonthly_roundtrip (m : MonthlyProjection) :
    parseMonthlyProjection (monthlyToJson m) = .ok m := by
  simp [parseMonthlyProjection, monthlyToJson, getRequired, jLookup, parseStr, parseFloat,
    Bind.bind, Except.bind]
  rfl

theorem parseQuarterly_roundtrip (m : QuarterlyProjection) :
    parseQuarterlyProjection (quarterlyToJson m) = .ok m := by
  simp [parseQuarterlyProjection, quarterlyToJson, getRequired, jLookup, parseStr,
    parseFloat, Bind.bind, Except.bind]
  rfl

theorem parseAnnual_roundtrip (m : AnnualProjection) :
    parseAnnualProjection (annualToJson m) = .ok m := by
  simp [parseAnnualProjection, annualToJson, getRequired, jLookup, parseInt,
    parseFloat, Bind.bind, Except.bind, Rat.den_intCast, Rat.num_intCast]
  rfl

theorem parseArray_monthly_roundtrip (l : List MonthlyProjection) :
    parseArray parseMonthlyProjection (l.map monthlyToJson) = .ok l := by
  induction l with
  | nil => rfl
  | cons m rest ih =>
    simp [parseArray, parseMonthly_roundtrip, ih, Bind.bind, Except.bind]
    rfl

theorem parseArray_quarterly_roundtrip (l : List QuarterlyProjection) :
    parseArray parseQuarterlyProjection (l.map quarterlyToJson) = .ok l := by
  induction l with
  | nil => rfl
  | cons m rest ih =>
    simp [parseArray, parseQuarterly_roundtrip, ih, Bind.bind, Except.bind]
    rfl

theorem parseArray_annual_roundtrip (l : List AnnualProjection) :
    parseArray parseAnnualProjection (l.map annualToJson) = .ok l := by
  induction l with
  | nil => rfl
  | cons m rest ih =>
    simp [parseArray, parseAnnual_roundtrip, ih, Bind.bind, Except.bind]
    rfl

/-- C6.  Structural validation of `ProjectionsData` does not enforce the
documented cardinalities 12/36/20/10/15: any well-typed lists, of any
lengths whatsoever, pass validation. -/
theorem claim6_cardinality_not_enforced :
    ∀ (l1 l3 : List MonthlyProjection) (l5 : List QuarterlyProjection)
      (l10 l15 : List AnnualProjection),
      parseProjectionsData (projectionsDataToJson ⟨l1, l3, l5, l10, l15⟩) =
        .ok ⟨l1, l3, l5, l10, l15⟩ := by
  intro l1 l3 l5 l10 l15
  simp [parseProjectionsData, projectionsDataToJson, getRequired, jLookup,
    parseListField, parseArray_monthly_roundtrip, parseArray_quarterly_roundtrip,
    parseArray_annual_roundtrip, Bind.bind, Except.bind]
  rfl

/-- A raw goal-based-projections object. -/
def sampleGoalJ : JValue :=
  .obj [("three_years_monthly", .arr [sampleMonthlyJ]),
        ("goal_achievement_summary", .str "Target reached in month 30."),
        ("required_adjustments", .arr [.str "increase marketing"]),
        ("feasibility_assessment", .str "achievable")]

/-- A complete valid upstream payload that does carry the optional
goal-based fields. -/
def sampleGoalPayload : JValue :=
  .obj [("executive_summary", .str "A steady business."),
        ("business_name", .str "Acme Pty Ltd"),
        ("completion_score", sampleScoreJ),
        ("data_quality_score", sampleScoreJ),
        ("projection_confidence_score", sampleScoreJ),
        ("projection_drivers_found", .arr [.str "seasonality"]),
        ("assumptions_made", .arr [.str "stable margins"]),
        ("anomalies_found", .arr []),
        ("methodology", sampleMethodologyJ),
        ("projections_data", sampleProjectionsJ),
        ("goal_based_projections", sampleGoalJ),
        ("goal_feasibility_score", sampleScoreJ),
        ("key_financial_ratios", sampleRatiosJ),
        ("risk_factors", .arr [.str "market risk"]),
        ("recommendations", .arr [.str "diversify"])]

/-- The validated object `sampleGoalPayload` parses to. -/
def sampleGoalParsed : EnhancedProjectionSchema :=
  { sampleParsed with
    goal_based_projections :=
      some ⟨[sampleMonthly], "Target reached in month 30.", ["increase marketing"],
            "achievable"⟩,
    goal_feasibility_score := some sampleScore }

/-- Whether an upstream outcome reaches the truthy branch of the success log
of src/main.py lines 422-423: the payload validates and the validated object
carries a `goal_based_projections` value. -/
def triggersGoalLog : UpstreamResponse → Bool
  | .json v =>
    match parseEnhancedProjectionSchema v with
    | .ok r => r.goal_based_projections.isSome
    | .error _ => false
  | _ => false

theorem handleUpstream_of_not_goalLog (g g' : Option ℚ) {u : UpstreamResponse}
    (h : triggersGoalLog u = false) : handleUpstream g u = handleUpstream g' u := by
  cases u with
  | noText => rfl
  | invalidJson m => rfl
  | transportFailure m => rfl
  | json v =>
    simp only [triggersGoalLog] at h
    simp only [handleUpstream]
    cases hp : parseEnhancedProjectionSchema v with
    | ok r =>
      rw [hp] at h
      simp only at h
      simp [h]
    | error e => rfl

/-- C9 counterexample.  A goal target of exactly 0 is not treated identically
to supplying no goal: on an upstream payload whose validated object carries
goal-based projections, the success log of src/main.py line 423 formats the
target, so target 0 formats as 0.00 and the object is returned while an
absent target makes the format of None raise, surfacing a 500 — the two runs
have different outcomes. -/
theorem claim9_counterexample :
    (predict samplePl sampleBs (some 0) (some 3) 2025 (.json sampleGoalPayload)).result =
      .ok sampleGoalParsed ∧
    (predict samplePl sampleBs none (some 3) 2025 (.json sampleGoalPayload)).result =
      .error ⟨500,
        "Schema validation failed: unsupported format string passed to NoneType.__format__"⟩ ∧
    predict samplePl sampleBs (some 0) (some 3) 2025 (.json sampleGoalPayload) ≠
      predict samplePl sampleBs none (some 3) 2025 (.json sampleGoalPayload) := by
  have e1 : (predict samplePl sampleBs (some 0) (some 3) 2025
      (.json sampleGoalPayload)).result = .ok sampleGoalParsed := rfl
  have e2 : (predict samplePl sampleBs none (some 3) 2025
      (.json sampleGoalPayload)).result = .error ⟨500,
        "Schema validation failed: unsupported format string passed to NoneType.__format__"⟩ := rfl
  refine ⟨e1, e2, fun h => ?_⟩
  have h' := congrArg PredictOutcome.result h
  rw [e1, e2] at h'
  exact absurd h' (by simp)

/-- C9 (amended).  A supplied goal target revenue of exactly 0 omits the goal
block from the instruction text exactly as if no goal were supplied, also via
the dedicated goal endpoint, which delegates to the same path; the two runs
always send the same instruction and call the service under the same
conditions, and their outcomes coincide whenever the upstream outcome does
not reach the success log of a validated payload carrying goal-based
projections.  At such payloads they differ only in that log line: the target
0 run returns the validated object, while the no-target run fails with the
500 None-formatting error. -/
theorem claim9_zero_target_scope :
    (∀ y yr, buildInstruction (some 0) y yr = basePrompt ++ qaSection) ∧
    (∀ pl bs ty yr u, predict_with_goal pl bs 0 ty yr u =
       predict pl bs (some 0) (some ty) yr u) ∧
    (∀ pl bs y yr u,
       (predict pl bs (some 0) y yr u).serviceCalled =
         (predict pl bs none y yr u).serviceCalled ∧
       (predict pl bs (some 0) y yr u).promptSent =
         (predict pl bs none y yr u).promptSent) ∧
    (∀ pl bs y yr u, triggersGoalLog u = false →
       predict pl bs (some 0) y yr u = predict pl bs none y yr u) ∧
    (∀ pl bs y yr v r, csvFileOk pl.filename = true → csvFileOk bs.filename = true →
       parseEnhancedProjectionSchema v = .ok r →
       r.goal_based_projections.isSome = true →
       (predict pl bs (some 0) y yr (.json v)).result = .ok r ∧
       (predict pl bs none y yr (.json v)).result = .error ⟨500,
         "Schema validation failed: unsupported format string passed to NoneType.__format__"⟩) := by
  have hprompt : ∀ y yr, buildInstruction (some 0) y yr = buildInstruction none y yr := by
    intro y yr
    simp [buildInstruction, goalPromptAddition]
  refine ⟨?_, ?_, ?_, ?_, ?_⟩
  · intro y yr
    rw [hprompt]
    simp [buildInstruction, goalPromptAddition]
  · intro pl bs ty yr u
    rfl
  · intro pl bs y yr u
    unfold predict
    cases hpl : csvFileOk pl.filename with
    | false => simp
    | true =>
      cases hbs : csvFileOk bs.filename with
      | false => simp
      | true => simp [hprompt]
  · intro pl bs y yr u h
    unfold predict
    rw [handleUpstream_of_not_goalLog (some 0) none h, hprompt]
  · intro pl bs y yr v r h1 h2 hp hgoal
    unfold predict
    rw [h1, h2]
    constructor
    · simp [handleUpstream, hp, hgoal]
    · simp [handleUpstream, hp, hgoal]

/-- Witness for C9 (amended): on a concrete payload without goal projections
the two runs coincide; on a concrete payload with goal projections the
target-0 run succeeds and the no-target run fails with the 500 formatting
error. -/
theorem claim9_witness :
    predict samplePl sampleBs (some 0) (some 3) 2025 (.json samplePayload) =
      predict samplePl sampleBs none (some 3) 2025 (.json samplePayload) ∧
    ((predict samplePl sampleBs (some 0) (some 3) 2025
         (.json sampleGoalPayload)).result = .ok sampleGoalParsed ∧
     (predict samplePl sampleBs none (some 3) 2025
         (.json sampleGoalPayload)).result = .error ⟨500,
       "Schema validation failed: unsupported format string passed to NoneType.__format__"⟩) :=
  ⟨claim9_zero_target_scope.2.2.2.1 samplePl sampleBs (some 3) 2025
      (.json samplePayload) rfl,
   claim9_zero_target_scope.2.2.2.2 samplePl sampleBs (some 3) 2025 sampleGoalPayload
      sampleGoalParsed rfl rfl rfl rfl⟩

/-- Tail of `goalSeg3` after its leading " years" text. -/
def goalSeg3rest : String := "
        - Goal Achievement Date: December "

theorem goalSeg3_eq : goalSeg3 = " years" ++ goalSeg3rest := rfl

/-- If a pattern occurs nowhere in the five chunks of the no-goal
instruction text, nor across any chunk boundary, it does not occur in the
no-goal instruction text at all. -/
theorem noGoal_not_contains (p : String)
    (h1 : occursIn p.data (basePromptChunk1.data ++
      ((basePromptChunk2.data ++ (basePromptChunk3.data ++
        (qaSectionChunk1.data ++ qaSectionChunk2.data))).take (p.data.length - 1))) = false)
    (h2 : occursIn p.data (basePromptChunk2.data ++
      ((basePromptChunk3.data ++
        (qaSectionChunk1.data ++ qaSectionChunk2.data)).take (p.data.length - 1))) = false)
    (h3 : occursIn p.data (basePromptChunk3.data ++
      ((qaSectionChunk1.data ++ qaSectionChunk2.data).take (p.data.length - 1))) = false)
    (h4 : occursIn p.data (qaSectionChunk1.data ++
      (qaSectionChunk2.data.take (p.data.length - 1))) = false)
    (h5 : occursIn p.data qaSectionChunk2.data = false) :
    ¬ StrContains (basePrompt ++ qaSection) p := by
  unfold StrContains
  have hdata : (basePrompt ++ qaSection).data =
      basePromptChunk1.data ++ (basePromptChunk2.data ++ (basePromptChunk3.data ++
        (qaSectionChunk1.data ++ qaSectionChunk2.data))) := by
    simp [basePrompt, qaSection, List.append_assoc]
  rw [hdata]
  exact not_occurrence_append (not_occurs h1)
    (not_occurrence_append (not_occurs h2)
      (not_occurrence_append (not_occurs h3)
        (not_occurrence_append (not_occurs h4) (not_occurs h5))))

/-- C5 counterexample.  The instruction text is not a function of
(hasGoal, targetAmount, timeframeYears) alone: with identical goal
parameters, two different current calendar years (which enter the goal
block's achievement-date line via `datetime.now().year`) produce different
instruction texts. -/
theorem claim5_counterexample :
    buildInstruction (some 500000) (some 3) 2025 ≠
      buildInstruction (some 500000) (some 3) 2026 := by
  intro h
  have hx : (500000 : ℚ) ≠ 0 := by norm_num
  simp only [buildInstruction, goalPromptAddition, if_neg hx] at h
  have h' := congrArg String.data h
  simp only [goalBlock, String.data_append, List.append_assoc] at h'
  replace h' := List.append_cancel_left h'
  replace h' := List.append_cancel_left h'
  replace h' := List.append_cancel_left h'
  replace h' := List.append_cancel_left h'
  replace h' := List.append_cancel_left h'
  replace h' := List.append_cancel_left h'
  replace h' := List.append_cancel_right h'
  exact absurd h' (by decide)

/-- C5 (amended).  The instruction text is a deterministic function of
(hasGoal, targetAmount, timeframeYears) together with the current calendar
year, which enters only the goal block's achievement-date line.  With no
goal the text is exactly base block + quality-assurance block and contains
neither the goal block's target-revenue token nor its timeframe token; with
a truthy goal target X over Y years it is the concatenation
base block + goal block + quality-assurance block and contains the literal
formatted values of X and Y. -/
theorem claim5_instruction_structure :
    (∀ y yr, buildInstruction none y yr = basePrompt ++ qaSection) ∧
    ¬ StrContains (basePrompt ++ qaSection) "- Target Revenue: $" ∧
    ¬ StrContains (basePrompt ++ qaSection) "- Timeframe: " ∧
    (∀ (x : ℚ) (y yr : ℤ), x ≠ 0 →
       buildInstruction (some x) (some y) yr =
         basePrompt ++ goalBlock x (some y) yr ++ qaSection ∧
       StrContains (buildInstruction (some x) (some y) yr) (pyFormatComma2 x) ∧
       StrContains (buildInstruction (some x) (some y) yr) (toString y ++ " years")) := by
  refine ⟨?_, ?_, ?_, ?_⟩
  · intro y yr
    simp [buildInstruction, goalPromptAddition]
  · exact noGoal_not_contains "- Target Revenue: $" (by decide) (by decide) (by decide)
      (by decide) (by decide)
  · exact noGoal_not_contains "- Timeframe: " (by decide) (by decide) (by decide)
      (by decide) (by decide)
  · intro x y yr hx
    refine ⟨?_, ?_, ?_⟩
    · simp only [buildInstruction, goalPromptAddition, if_neg hx]
    · show (pyFormatComma2 x).data <:+: (buildInstruction (some x) (some y) yr).data
      have hfull : (buildInstruction (some x) (some y) yr).data =
          (basePrompt ++ goalSeg1).data ++ ((pyFormatComma2 x).data ++
            (goalSeg2 ++ (formatOptInt (some y) ++ (goalSeg3 ++
              (toString (yr + pyOrInt (some y) 3) ++ (goalSeg4 ++
                (pyFormatComma2 x ++ (goalSeg5 ++ (pyFormatComma2 x ++
                  (goalSeg6 ++ qaSection))))))))).data) := by
        simp [buildInstruction, goalPromptAddition, if_neg hx, goalBlock,
          List.append_assoc]
      rw [hfull]
      exact List.infix_append' _ _ _
    · show (toString y ++ " years").data <:+: (buildInstruction (some x) (some y) yr).data
      have hfull : (buildInstruction (some x) (some y) yr).data =
          (basePrompt ++ (goalSeg1 ++ (pyFormatComma2 x ++ goalSeg2))).data ++
            ((toString y ++ " years").data ++
              (goalSeg3rest ++ (toString (yr + pyOrInt (some y) 3) ++ (goalSeg4 ++
                (pyFormatComma2 x ++ (goalSeg5 ++ (pyFormatComma2 x ++
                  (goalSeg6 ++ qaSection))))))).data) := by
        simp [buildInstruction, goalPromptAddition, if_neg hx, goalBlock, goalSeg3_eq,
          formatOptInt, List.append_assoc]
      rw [hfull]
      exact List.infix_append' _ _ _

/-- Witness for C5 (amended): concrete goal parameters 500000 over 3 years. -/
theorem claim5_witness :
    buildInstruction (some 500000) (some 3) 2025 =
      basePrompt ++ goalBlock 500000 (some 3) 2025 ++ qaSection ∧
    StrContains (buildInstruction (some 500000) (some 3) 2025) (pyFormatComma2 500000) ∧
    StrContains (buildInstruction (some 500000) (some 3) 2025)
      (toString (3 : ℤ) ++ " years") :=
  claim5_instruction_structure.2.2.2 500000 3 2025 (by norm_num)

theorem rpow_third_cubed : ((2 : ℝ) ^ ((1 : ℝ) / 3)) ^ (3 : ℕ) = 2 := by
  rw [← Real.rpow_natCast ((2 : ℝ) ^ ((1 : ℝ) / 3)) 3,
    ← Real.rpow_mul (by norm_num : (0 : ℝ) ≤ 2)]
  norm_num

theorem cbrt_two_gt : (1.259920 : ℝ) < (2 : ℝ) ^ ((1 : ℝ) / 3) := by
  have hpos : (0 : ℝ) ≤ (2 : ℝ) ^ ((1 : ℝ) / 3) := Real.rpow_nonneg (by norm_num) _
  apply lt_of_pow_lt_pow_left₀ 3 hpos
  rw [rpow_third_cubed]
  norm_num

theorem cbrt_two_lt : (2 : ℝ) ^ ((1 : ℝ) / 3) < (1.259922 : ℝ) := by
  apply lt_of_pow_lt_pow_left₀ 3 (by norm_num : (0 : ℝ) ≤ (1.259922 : ℝ))
  rw [rpow_third_cubed]
  norm_num

theorem roundHalfEvenR_eq_below {y : ℝ} {n : ℤ} (h1 : (n : ℝ) ≤ y)
    (h2 : y < n + 1 / 2) : roundHalfEvenR y = n := by
  have hfl : ⌊y⌋ = n := Int.floor_eq_iff.mpr ⟨h1, by linarith⟩
  have hfr : Int.fract y < 1 / 2 := by
    simp only [Int.fract, hfl]
    linarith
  unfold roundHalfEvenR
  rw [if_pos hfr, hfl]

theorem roundHalfEvenR_eq_above {y : ℝ} {n : ℤ} (h1 : (n : ℝ) + 1 / 2 < y)
    (h2 : y < n + 1) : roundHalfEvenR y = n + 1 := by
  have hfl : ⌊y⌋ = n := Int.floor_eq_iff.mpr ⟨by linarith, h2⟩
  have hfr1 : ¬ Int.fract y < 1 / 2 := by
    simp only [Int.fract, hfl, not_lt]
    linarith
  have hfr2 : 1 / 2 < Int.fract y := by
    simp only [Int.fract, hfl]
    linarith
  unfold roundHalfEvenR
  rw [if_neg hfr1, if_pos hfr2, hfl]

theorem cagr_percent_eval : pyRound2 (((2 : ℝ) ^ ((1 : ℝ) / 3) - 1) * 100) = 25.99 := by
  have hgt := cbrt_two_gt
  have hlt := cbrt_two_lt
  unfold pyRound2
  rw [roundHalfEvenR_eq_below (n := 2599) (by push_cast; nlinarith) (by push_cast; nlinarith)]
  norm_num

theorem cagr_fraction_eval : pyRound2 ((2 : ℝ) ^ ((1 : ℝ) / 3) - 1) = 0.26 := by
  have hgt := cbrt_two_gt
  have hlt := cbrt_two_lt
  unfold pyRound2
  rw [roundHalfEvenR_eq_above (n := 25) (by push_cast; nlinarith) (by push_cast; nlinarith)]
  norm_num

theorem pyRound2_two : pyRound2 (2 : ℝ) = 2 := by
  unfold pyRound2
  rw [roundHalfEvenR_eq_below (n := 200) (by norm_num) (by norm_num)]
  norm_num

theorem claim3_core : calculate_goal_requirements ⟨100000, 200000, 3⟩ = .ok
    { current_revenue := 100000, target_revenue := 200000, timeframe_years := 3,
      required_cagr := 25.99,
      required_monthly_growth :=
        pyRound2 ((((200000 : ℝ) / 100000) ^ ((1 : ℝ) / (((3 : ℤ) : ℝ) * 12)) - 1) * 100),
      growth_multiple := 2,
      feasibility_assessment := "Requires detailed analysis with historical data",
      recommendation :=
        "Use /predict endpoint with goal parameters for comprehensive analysis" } := by
  have e1 : ((200000 : ℝ) / 100000) = 2 := by norm_num
  have e2 : (((3 : ℤ) : ℝ)) = 3 := by norm_num
  simp only [calculate_goal_requirements]
  rw [if_neg (by norm_num : ¬ ((100000 : ℝ) = 0)),
    if_neg (by norm_num : ¬ ((3 : ℤ) = 0)),
    if_neg (by norm_num : ¬ ((200000 : ℝ) / 100000 < 0)),
    if_neg (by norm_num : ¬ ((200000 : ℝ) = 0 ∧ (3 : ℤ) < 0))]
  rw [e1]
  rw [show ((1 : ℝ) / ((3 : ℤ) : ℝ)) = (1 : ℝ) / 3 by rw [e2]]
  rw [cagr_percent_eval, pyRound2_two]

/-- C3 counterexample.  At currentRevenue 100000, targetRevenue 200000,
timeframeYears 3, the utility returns `required_cagr = 25.99` — the CAGR as
a percentage — while the claimed value, the CAGR
`(target/current)^(1/years) - 1` rounded to two decimal places, is `0.26`
(approximately 0.2599); the returned field does not equal it. -/
theorem claim3_counterexample :
    (∃ resp, calculate_goal_requirements ⟨100000, 200000, 3⟩ = .ok resp ∧
       resp.required_cagr = 25.99) ∧
    pyRound2 ((2 : ℝ) ^ ((1 : ℝ) / 3) - 1) = 0.26 ∧
    (25.99 : ℝ) ≠ 0.26 :=
  ⟨⟨_, claim3_core, rfl⟩, cagr_fraction_eval, by norm_num⟩

/-- C3 (amended).  For positive current revenue, positive target revenue and
a positive timeframe, `calculate_goal_requirements` returns the growth rates
as percentages rounded to two decimal places — `required_cagr` is
`round(100 * ((target/current)^(1/years) - 1), 2)` — and the growth multiple
rounded to two decimal places; for 100000 → 200000 over 3 years this yields
`required_cagr = 25.99` (i.e. 25.99 percent, 0.2599 as a fraction) and
`growth_multiple = 2.00`. -/
theorem claim3_percentage_rounding :
    (∀ req : GoalRequirementsRequest, 0 < req.current_revenue → 0 < req.target_revenue →
       0 < req.timeframe_years →
       calculate_goal_requirements req = .ok
         { current_revenue := req.current_revenue, target_revenue := req.target_revenue,
           timeframe_years := req.timeframe_years,
           required_cagr := pyRound2 (((req.target_revenue / req.current_revenue) ^
             ((1 : ℝ) / (req.timeframe_years : ℝ)) - 1) * 100),
           required_monthly_growth := pyRound2 (((req.target_revenue / req.current_revenue) ^
             ((1 : ℝ) / ((req.timeframe_years : ℝ) * 12)) - 1) * 100),
           growth_multiple := pyRound2 (req.target_revenue / req.current_revenue),
           feasibility_assessment := "Requires detailed analysis with historical data",
           recommendation :=
             "Use /predict endpoint with goal parameters for comprehensive analysis" }) ∧
    (∃ resp, calculate_goal_requirements ⟨100000, 200000, 3⟩ = .ok resp ∧
       resp.required_cagr = 25.99 ∧ resp.growth_multiple = 2) := by
  constructor
  · intro req h1 h2 h3
    simp only [calculate_goal_requirements]
    rw [if_neg h1.ne', if_neg h3.ne',
      if_neg (not_lt.mpr (le_of_lt (div_pos h2 h1))),
      if_neg (by rintro ⟨ht, _⟩; exact h2.ne' ht)]
  · exact ⟨_, claim3_core, rfl, rfl⟩

/-- Witness for C3 (amended): the general percentage formula applied at the
concrete input 100000 → 200000 over 3 years. -/
theorem claim3_witness :
    calculate_goal_requirements ⟨100000, 200000, 3⟩ = .ok
      { current_revenue := 100000, target_revenue := 200000, timeframe_years := 3,
        required_cagr :=
          pyRound2 ((((200000 : ℝ) / 100000) ^ ((1 : ℝ) / ((3 : ℤ) : ℝ)) - 1) * 100),
        required_monthly_growth :=
          pyRound2 ((((200000 : ℝ) / 100000) ^ ((1 : ℝ) / (((3 : ℤ) : ℝ) * 12)) - 1) * 100),
        growth_multiple := pyRound2 ((200000 : ℝ) / 100000),
        feasibility_assessment := "Requires detailed analysis with historical data",
        recommendation :=
          "Use /predict endpoint with goal parameters for comprehensive analysis" } :=
  claim3_percentage_rounding.1 ⟨100000, 200000, 3⟩ (by norm_num) (by norm_num) (by norm_num)

/-- C4 counterexample.  With current revenue 0 the utility does not raise an
InvalidInput-class (400) error: the division error is caught and surfaced as
a generic 500 server error. -/
theorem claim4_counterexample :
    calculate_goal_requirements ⟨0, 200000, 3⟩ =
      .error ⟨500, "Goal calculation failed: float division by zero"⟩ ∧
    (500 : ℕ) ≠ 400 := by
  constructor
  · simp only [calculate_goal_requirements]
    rw [if_pos trivial]
  · norm_num

/-- C4 (amended).  With `current_revenue = 0` or `timeframe_years = 0` the
division raises, the handler catches it, and the utility fails with a
500-classified error; in particular it never returns a result in either
case (the error classification is a generic server error, not the
InvalidInput/400 class the specification promises). -/
theorem claim4_zero_preconditions :
    ∀ req : GoalRequirementsRequest,
      req.current_revenue = 0 ∨ req.timeframe_years = 0 →
      ∃ msg, calculate_goal_requirements req = .error ⟨500, msg⟩ := by
  intro req h
  by_cases hc : req.current_revenue = 0
  · exact ⟨_, by simp only [calculate_goal_requirements]; rw [if_pos hc]⟩
  · have hy : req.timeframe_years = 0 := h.resolve_left hc
    exact ⟨_, by simp only [calculate_goal_requirements]; rw [if_neg hc, if_pos hy]⟩

/-- Witness for C4 (amended): concrete zero current revenue and concrete zero
timeframe both yield 500-classified failures. -/
theorem claim4_witness :
    (∃ msg, calculate_goal_requirements ⟨0, 200000, 3⟩ = .error ⟨500, msg⟩) ∧
    (∃ msg, calculate_goal_requirements ⟨50000, 60000, 0⟩ = .error ⟨500, msg⟩) :=
  ⟨claim4_zero_preconditions ⟨0, 200000, 3⟩ (Or.inl rfl),
   claim4_zero_preconditions ⟨50000, 60000, 0⟩ (Or.inr rfl)⟩
